import Mathlib

/-!
Shallow embedding of the VisionScout front end (src/pages/Chat.tsx and
src/pages/Listings.tsx): the chat transcript model, the listing classifier,
the source normalizers, the fetch cycle with its cancellation guard, the
search/filter engine and the paginator.
-/

/-! ## JavaScript-style helpers -/

/-- JS truthiness of an optional string value: defined and non-empty. -/
def truthyStr : Option String → Bool
  | some s => !s.isEmpty
  | none => false

/-- JS truthiness of an optional numeric value: defined and non-zero. -/
def truthyNat : Option Nat → Bool
  | some n => n != 0
  | none => false

/-- Semantics of the JS expression `v || d` for a possibly-undefined string
`v`: the value when truthy, otherwise the default. -/
def jsOrStr (v : Option String) (d : String) : String :=
  match v with
  | some s => if s.isEmpty then d else s
  | none => d

/-- Semantics of a JS template interpolation of a possibly-undefined value:
`undefined` interpolates as the literal text "undefined". -/
def jsInterp : Option String → String
  | some s => s
  | none => "undefined"

/-- Digit grouping step for `Number.prototype.toLocaleString`: the input list
is least-significant digit first; a comma is inserted after every third digit
that is followed by at least one more digit. -/
def groupThrees : List Char → List Char
  | a :: b :: c :: rest@(_ :: _) => a :: b :: c :: ',' :: groupThrees rest
  | l => l

/-- Model of `Number(n).toLocaleString()` for a natural number: decimal
digits with comma thousands separators. -/
def toLocaleString (n : Nat) : String :=
  ⟨(groupThrees (Nat.toDigits 10 n).reverse).reverse⟩

/-- Substring occurrence on character lists, checking a prefix match at every
position; the empty needle occurs in every haystack. -/
def listIncludes (needle : List Char) : List Char → Bool
  | [] => needle.isEmpty
  | c :: rest => needle.isPrefixOf (c :: rest) || listIncludes needle rest

/-- Model of `String.prototype.includes`: `jsIncludes h n` holds when `n`
occurs as a contiguous substring of `h`. -/
def jsIncludes (h n : String) : Bool :=
  listIncludes n.data h.data

/-- Model of `String.prototype.trim`: whitespace removed from both ends. -/
def jsTrim (s : String) : String :=
  ⟨(((s.data.dropWhile Char.isWhitespace).reverse).dropWhile
      Char.isWhitespace).reverse⟩

/-- Model of `String.prototype.toLowerCase` for the character data. -/
def jsToLower (s : String) : String :=
  ⟨s.data.map Char.toLower⟩

/-! ## Chat.tsx: data model

The `Message` interface, the backend response shape of `POST /api/chat`, and
the untyped listing records the backend may attach. Every record field the
component probes is optional, mirroring the untyped `any[]` payload. -/

/-- Role of a chat message, the `"user" | "assistant"` union in `Message`. -/
inductive Role where
  | user
  | assistant
  deriving Repr, DecidableEq

/-- Untyped listing record delivered by the chat backend; the fields are the
ones `Chat.tsx` probes (`isCar` and the two render layouts). -/
structure ChatRecord where
  make : Option String := none
  bodyType : Option String := none
  source : Option String := none
  address : Option String := none
  title : Option String := none
  city : Option String := none
  year : Option Nat := none
  deriving Repr, DecidableEq

/-- The `Message` interface of Chat.tsx. -/
structure Message where
  id : String
  role : Role
  listings : Option (List ChatRecord) := none
  content : String
  deriving Repr, DecidableEq

/-- Component state of Chat.tsx that `handleSend` reads and writes:
`messages`, `input` and `isLoading`. -/
structure ChatState where
  messages : List Message
  input : String
  isLoading : Bool
  deriving Repr, DecidableEq

/-- Parsed JSON body returned by `POST /api/chat`:
`{ reply?: string, listings?: RawListing[] }`. -/
structure ChatResponse where
  reply : Option String := none
  listings : Option (List ChatRecord) := none
  deriving Repr, DecidableEq

/-- The truthiness test `data.listings && data.listings.length > 0`. -/
def hasListings (l : Option (List ChatRecord)) : Bool :=
  match l with
  | some xs => xs.length > 0
  | none => false

/-- Fallback content of the assistant message when the backend returns no
listings and no truthy reply. The source file stores this literal with a
mojibake-corrupted typographic apostrophe (the three characters U+00E2,
U+20AC, U+2122 in place of the apostrophe), reproduced here exactly. -/
def noListingsFallback : String :=
  "I couldnâ€™t find any matching listings."

/-- The initial transcript of Chat.tsx (the `useState` initializer). -/
def initialChatState : ChatState :=
  { messages := [{ id := "1", role := .assistant, content :=
      "Hello! I'm your VisionScout AI assistant. I'm here to help you find the perfect property or car based on your preferences. What are you looking for today?" }]
    input := ""
    isLoading := false }

/-- Outcome of the awaited chat round trip: `Except.error` models a thrown
network/parse failure (the `catch` path), `Except.ok` a parsed JSON body. -/
def ChatRoundTrip := Except Unit ChatResponse

/-- Embedding of `handleSend` in Chat.tsx. `now` is the value of
`Date.now()`; `resp` is the resolved round trip. Returns the final component
state together with the body of the request that was issued (`none` when the
guard returned early and no request was made). The `catch` branch shows a
toast and appends nothing; `finally` clears the loading flag. -/
def handleSend (now : Nat) (resp : Except Unit ChatResponse) (s : ChatState) :
    ChatState × Option String :=
  if (jsTrim s.input).isEmpty || s.isLoading then
    (s, none)
  else
    let userMessage : Message :=
      { id := toString now, role := .user, content := s.input }
    let s1 : ChatState :=
      { messages := s.messages ++ [userMessage], input := "", isLoading := true }
    match resp with
    | .error _ => ({ s1 with isLoading := false }, some s.input)
    | .ok data =>
      if hasListings data.listings then
        let listingsMessage : Message :=
          { id := toString (now + 1), role := .assistant, content := "",
            listings := some ((data.listings.getD []).take 3) }
        ({ s1 with messages := s1.messages ++ [listingsMessage],
                   isLoading := false }, some s.input)
      else
        let fallbackMessage : Message :=
          { id := toString (now + 1), role := .assistant,
            content := jsOrStr data.reply noListingsFallback }
        ({ s1 with messages := s1.messages ++ [fallbackMessage],
                   isLoading := false }, some s.input)

/-- The `isCar` classifier inside the listings render of Chat.tsx:
`item.make || item.bodyType || item.source === "Cars.com"`. -/
def isCar (item : ChatRecord) : Bool :=
  truthyStr item.make || truthyStr item.bodyType ||
    item.source == some "Cars.com"

/-! ## Listings.tsx: data model -/

/-- The `ListingType` union: `"property" | "car"`. -/
inductive ListingType where
  | property
  | car
  deriving Repr, DecidableEq

/-- The `PropertyListing` type. `bedrooms` and `bathrooms` are
`number | string` in the source (a count, or the em-dash placeholder). -/
inductive NumOrStr where
  | num (n : Nat)
  | str (s : String)
  deriving Repr, DecidableEq

/-- Canonical property listing produced by the property normalizer. -/
structure PropertyListing where
  id : String
  title : String
  location : String
  price : String
  bedrooms : NumOrStr
  bathrooms : NumOrStr
  sqft : String
  image : String
  condition : Nat
  deriving Repr, DecidableEq

/-- Canonical car listing produced by the vehicle normalizer. The three
trailing fields are optional in the source type but populated at every
construction site. -/
structure CarListing where
  id : String
  title : String
  details : String
  price : String
  mileage : String
  year : String
  image : String
  condition : Nat
  color : String
  make : String
  bodyType : String
  deriving Repr, DecidableEq

/-- The property filter state object (all fields are strings in the UI). -/
structure Filters where
  city : String := "Richardson"
  propertyType : String := "Apartment,Single Family,Condo"
  bedrooms : String := ""
  bathrooms : String := ""
  sqftMin : String := ""
  sqftMax : String := ""
  deriving Repr, DecidableEq

/-- The car filter state object. -/
structure CarFilters where
  color : String := ""
  bodyType : String := ""
  make : String := ""
  deriving Repr, DecidableEq

/-- Raw RentCast sale listing, restricted to the fields the property
normalizer reads. Every field may be absent. -/
structure RawProperty where
  id : Option String := none
  addressLine1 : Option String := none
  propertyType : Option String := none
  city : Option String := none
  state : Option String := none
  price : Option Nat := none
  bedrooms : Option Nat := none
  bathrooms : Option Nat := none
  squareFootage : Option Nat := none
  deriving Repr, DecidableEq

/-- The `build` sub-object of a MarketCheck car record. -/
structure CarBuild where
  make : Option String := none
  model : Option String := none
  year : Option Nat := none
  trim : Option String := none
  body_type : Option String := none
  transmission : Option String := none
  deriving Repr, DecidableEq

/-- The `media` sub-object of a MarketCheck car record. -/
structure CarMedia where
  photo_links : Option (List String) := none
  deriving Repr, DecidableEq

/-- Raw MarketCheck car record, restricted to the fields the vehicle
normalizer reads. Every field may be absent. -/
structure RawCar where
  id : Option String := none
  build : Option CarBuild := none
  make : Option String := none
  model : Option String := none
  year : Option Nat := none
  trim : Option String := none
  price : Option Nat := none
  miles : Option Nat := none
  body_type : Option String := none
  transmission : Option String := none
  exterior_color : Option String := none
  color : Option String := none
  media : Option CarMedia := none
  deriving Repr, DecidableEq

/-! ## Listings.tsx: source normalizers -/

/-- The fixed pool of stock property images. -/
def propertyImages : List String :=
  ["https://images.unsplash.com/photo-1545324418-cc1a3fa10c00?w=600&h=400&fit=crop",
   "https://images.unsplash.com/photo-1568605114967-8130f3a36994?w=600&h=400&fit=crop",
   "https://images.unsplash.com/photo-1512917774080-9991f1c4c750?w=600&h=400&fit=crop",
   "https://images.unsplash.com/photo-1522708323590-d24dbb6b0267?w=600&h=400&fit=crop",
   "https://images.unsplash.com/photo-1613490493576-7fde63acd811?w=600&h=400&fit=crop",
   "https://images.unsplash.com/photo-1564013799919-ab600027ffc6?w=600&h=400&fit=crop"]

/-- The fixed pool of stock car images. -/
def carImages : List String :=
  ["https://images.unsplash.com/photo-1617788138017-80ad40651399?w=600&h=400&fit=crop",
   "https://images.unsplash.com/photo-1555215695-3004980ad54e?w=600&h=400&fit=crop",
   "https://images.unsplash.com/photo-1503376780353-7e6692767b70?w=600&h=400&fit=crop",
   "https://images.unsplash.com/photo-1552519507-da3b142c6e3d?w=600&h=400&fit=crop",
   "https://images.unsplash.com/photo-1606664515524-ed2f786a0bd6?w=600&h=400&fit=crop",
   "https://images.unsplash.com/photo-1533473359331-0135ef1b58bf?w=600&h=400&fit=crop"]

/-- Value of the bundler-imported demo car asset `IMG_6728.jpg` (an opaque
URL; it does not start with "http", which the detail dialog relies on). -/
def demoCarImg : String := "/assets/IMG_6728.jpg"

/-- One draw of `Math.floor(Math.random() * 26) + 70`, parameterized by the
random sample `rnd`. -/
def conditionDraw (rnd : Nat) : Nat := rnd % 26 + 70

/-- First element of `s.split(" ")`: the prefix of `s` up to the first
space. -/
def firstWord (s : String) : String := (s.splitOn " ").headD ""

/-- Embedding of the property normalizer (the `rentData.map` callback in
Listings.tsx). `city` is the captured `filters.city`; `rnd` models the
per-record `Math.random()` draw; `i` is the positional index. -/
def transformProperty (city : String) (rnd : Nat) (i : Nat) (p : RawProperty) :
    PropertyListing :=
  { id := jsOrStr p.id (toString i ++ "-" ++ jsOrStr p.addressLine1 "addr")
    title :=
      if truthyStr p.propertyType then
        (p.propertyType.getD "") ++
          (if truthyStr p.addressLine1 then
            " on " ++ firstWord (p.addressLine1.getD "") ++ " St"
          else "")
      else "Property in " ++ jsInterp p.city
    location := jsOrStr p.city city ++ ", " ++ jsOrStr p.state "TX"
    price :=
      if truthyNat p.price then "$" ++ toLocaleString (p.price.getD 0)
      else "N/A"
    bedrooms := match p.bedrooms with
      | some n => .num n
      | none => .str "—"
    bathrooms := match p.bathrooms with
      | some n => .num n
      | none => .str "—"
    sqft :=
      if truthyNat p.squareFootage then
        toLocaleString (p.squareFootage.getD 0) ++ " sq ft"
      else "N/A"
    image := propertyImages.getD (i % propertyImages.length) ""
    condition := conditionDraw rnd }

/-- Embedding of the vehicle normalizer (the `carData.map` callback in
Listings.tsx). -/
def transformCar (rnd : Nat) (i : Nat) (c : RawCar) : CarListing :=
  let make := jsOrStr (c.build.bind CarBuild.make) (jsOrStr c.make "Unknown")
  let model := jsOrStr (c.build.bind CarBuild.model) (jsOrStr c.model "Model")
  let yearStr :=
    if truthyNat (c.build.bind CarBuild.year) then
      toString ((c.build.bind CarBuild.year).getD 0)
    else if truthyNat c.year then toString (c.year.getD 0)
    else "N/A"
  let trimStr := jsOrStr (c.build.bind CarBuild.trim) (jsOrStr c.trim "")
  let price :=
    if truthyNat c.price then "$" ++ toLocaleString (c.price.getD 0) else ""
  let miles :=
    if truthyNat c.miles then toLocaleString (c.miles.getD 0) ++ " miles"
    else "N/A"
  let bodyType :=
    jsOrStr (c.build.bind CarBuild.body_type) (jsOrStr c.body_type "")
  let transmission :=
    jsOrStr (c.build.bind CarBuild.transmission) (jsOrStr c.transmission "")
  let color := jsOrStr c.exterior_color (jsOrStr c.color "")
  let image :=
    jsOrStr ((c.media.bind CarMedia.photo_links).bind List.head?)
      (carImages.getD (i % carImages.length) "")
  { id := jsOrStr c.id ("car-" ++ toString i)
    title := yearStr ++ " " ++ make ++ " " ++ model
    details := bodyType ++
      (if !transmission.isEmpty then " • " ++ transmission else "") ++
      (if !trimStr.isEmpty then " • " ++ trimStr else "")
    price := price
    mileage := miles
    year := yearStr
    image := image
    condition := conditionDraw rnd
    color := color
    make := make
    bodyType := bodyType }

/-- The fixed demo car record that is always prepended to the vehicle
results. -/
def demoCar : CarListing :=
  { id := "demo-volkswagen-2014"
    title := "2014 Volkswagen SUV"
    details := "SUV • Automatic • Comfortline Trim"
    price := ""
    mileage := "124,000 miles"
    year := "2014"
    image := demoCarImg
    condition := 82
    color := "Black"
    make := "Volkswagen"
    bodyType := "SUV" }

/-- Batch property normalization: `rentData.map(...)` with positional
indices; `rnds` supplies the per-record random draws. -/
def transformProperties (city : String) (rnds : Nat → Nat)
    (rentData : List RawProperty) : List PropertyListing :=
  rentData.mapIdx (fun i p => transformProperty city (rnds i) i p)

/-- Batch vehicle normalization: `carData.map(...)` with positional
indices. -/
def transformCars (rnds : Nat → Nat) (carData : List RawCar) :
    List CarListing :=
  carData.mapIdx (fun i c => transformCar (rnds i) i c)

/-! ## Listings.tsx: page state and fetch cycle

The fetch `useEffect` awaits two upstream requests inside a single
`try`/`catch`/`finally`. A request either throws (network error: control
jumps to `catch`), returns a non-2xx response (`res.ok` false: the payload
variable keeps its `[]` initializer), or returns parsed JSON. State writes
after an `await` are guarded by the cycle-local `cancel` flag set by the
effect cleanup; the initial `setLoading(true)` is not guarded. -/

/-- Outcome of one awaited upstream request. -/
inductive FetchResult (α : Type) where
  | netError
  | httpError
  | ok (data : α)
  deriving Repr, DecidableEq

/-- Component state of Listings.tsx (the `useState` hooks); the defaults are
the initializers in the source. -/
structure ListingsPageState where
  activeType : ListingType := .property
  propertyListings : List PropertyListing := []
  carListings : List CarListing := []
  query : String := ""
  loading : Bool := true
  currentPage : Nat := 1
  filters : Filters := {}
  carFilters : CarFilters := {}
  deriving Repr, DecidableEq

/-- The initial page state. -/
def initialListingsState : ListingsPageState := {}

/-- One shared-state write performed by a fetch cycle, tagged with the value
of the cycle's `cancel` flag at the moment the write executes.
`setLoadingTrue` carries the flag but ignores it, because the source's
`setLoading(true)` is the one write not wrapped in `if (!cancel)`. -/
inductive FetchEv where
  | setLoadingTrue (cancel : Bool)
  | applyProps (cancel : Bool) (ps : List PropertyListing)
  | applyCars (cancel : Bool) (cs : List CarListing)
  | setLoadingFalse (cancel : Bool)
  deriving Repr, DecidableEq

/-- Effect of one fetch-cycle write on the page state, with the source's
`if (!cancel)` guards. -/
def stepEv (s : ListingsPageState) : FetchEv → ListingsPageState
  | .setLoadingTrue _ => { s with loading := true }
  | .applyProps c ps => if c then s else { s with propertyListings := ps }
  | .applyCars c cs => if c then s else { s with carListings := cs }
  | .setLoadingFalse c => if c then s else { s with loading := false }

/-- Run a sequence of fetch-cycle writes against the page state. -/
def runEvents (s : ListingsPageState) (evs : List FetchEv) : ListingsPageState :=
  evs.foldl stepEv s

/-- The `rentData` payload: parsed body on 2xx, the `[]` initializer on a
non-2xx status. -/
def rentPayload : FetchResult (List RawProperty) → List RawProperty
  | .ok d => d
  | _ => []

/-- The `carData` payload: `json.listings || []` on 2xx, the `[]`
initializer on a non-2xx status. -/
def carPayload : FetchResult (Option (List RawCar)) → List RawCar
  | .ok (some l) => l
  | _ => []

/-- Writes a fetch cycle performs before its first `await`: only
`setLoading(true)`, which always runs with `cancel` still false. -/
def preAwaitEvents : List FetchEv := [.setLoadingTrue false]

/-- Writes a fetch cycle performs after its first `await`, as a function of
the two upstream outcomes. `c1`, `c2`, `c3` are the values of the cycle's
`cancel` flag at the three guarded writes (the flag is read when each write
executes). A thrown property request jumps to `catch`, skipping both
applications; a thrown car request skips only the car application; `finally`
always clears the loading flag. -/
def postAwaitEvents (c1 c2 c3 : Bool) (city : String) (rndP rndC : Nat → Nat)
    (pr : FetchResult (List RawProperty))
    (cr : FetchResult (Option (List RawCar))) : List FetchEv :=
  (match pr with
   | .netError => []
   | _ =>
     FetchEv.applyProps c1 (transformProperties city rndP (rentPayload pr)) ::
     (match cr with
      | .netError => []
      | _ => [FetchEv.applyCars c2 (demoCar :: transformCars rndC (carPayload cr))])) ++
  [FetchEv.setLoadingFalse c3]

/-- All writes of one fetch cycle, in program order. -/
def cycleEvents (c1 c2 c3 : Bool) (city : String) (rndP rndC : Nat → Nat)
    (pr : FetchResult (List RawProperty))
    (cr : FetchResult (Option (List RawCar))) : List FetchEv :=
  preAwaitEvents ++ postAwaitEvents c1 c2 c3 city rndP rndC pr cr

/-- A complete fetch cycle run against a page state. `city` is the captured
`filters.city`; the cancel-flag values are `c1`, `c2`, `c3`. -/
def runCycle (c1 c2 c3 : Bool) (city : String) (rndP rndC : Nat → Nat)
    (pr : FetchResult (List RawProperty))
    (cr : FetchResult (Option (List RawCar)))
    (s : ListingsPageState) : ListingsPageState :=
  runEvents s (cycleEvents c1 c2 c3 city rndP rndC pr cr)

/-! ## Listings.tsx: search/filter engine and paginator -/

/-- The fixed page size. -/
def ITEMS_PER_PAGE : Nat := 9

/-- The per-listing predicate of `filteredListings` for the property kind,
with the source's early-return structure; `q` is the already-lowercased
query. -/
def propertyMatch (q : String) (p : PropertyListing) : Bool :=
  if jsIncludes (jsToLower p.title) q then true
  else if jsIncludes (jsToLower p.price) q then true
  else jsIncludes (jsToLower p.location) q || jsIncludes (jsToLower p.sqft) q

/-- The per-listing predicate of `filteredListings` for the car kind. -/
def carMatch (q : String) (c : CarListing) : Bool :=
  if jsIncludes (jsToLower c.title) q then true
  else if jsIncludes (jsToLower c.price) q then true
  else jsIncludes (jsToLower c.details) q || jsIncludes (jsToLower c.year) q ||
    jsIncludes (jsToLower c.mileage) q

/-- The `filteredListings` memo for the property kind: a blank query
short-circuits to the whole collection, otherwise the collection is filtered
with the lowercased query. -/
def filteredProperties (query : String) (l : List PropertyListing) :
    List PropertyListing :=
  if (jsTrim query).isEmpty then l
  else l.filter (propertyMatch (jsToLower query))

/-- The `filteredListings` memo for the car kind. -/
def filteredCars (query : String) (l : List CarListing) : List CarListing :=
  if (jsTrim query).isEmpty then l
  else l.filter (carMatch (jsToLower query))

/-- Length of the filtered view for the active listing kind. -/
def filteredListingsCount (s : ListingsPageState) : Nat :=
  match s.activeType with
  | .property => (filteredProperties s.query s.propertyListings).length
  | .car => (filteredCars s.query s.carListings).length

/-- `Math.ceil(filteredListings.length / ITEMS_PER_PAGE) || 1`. -/
def totalPages (filteredCount : Nat) : Nat :=
  let t := (filteredCount + (ITEMS_PER_PAGE - 1)) / ITEMS_PER_PAGE
  if t = 0 then 1 else t

/-- `filteredListings.slice(startIndex, startIndex + ITEMS_PER_PAGE)` with
`startIndex = (currentPage - 1) * ITEMS_PER_PAGE`. -/
def paginate {α : Type} (currentPage : Nat) (l : List α) : List α :=
  (l.drop ((currentPage - 1) * ITEMS_PER_PAGE)).take ITEMS_PER_PAGE

/-! ## Listings.tsx: user actions and the page-reset effect -/

/-- A user-driven state update on the listings page. -/
inductive PageAction where
  | setActiveType (t : ListingType)
  | setFilters (f : Filters)
  | setCarFilters (f : CarFilters)
  | setQuery (q : String)
  | pageChange (p : Nat)
  deriving Repr, DecidableEq

/-- Effect of one user action, with the page-reset `useEffect` (dependencies
`[activeType, filters, carFilters]`) fused in: the filter setters always
construct a fresh object, so the effect re-runs and resets the page; setting
the active type to its current value is a React no-op re-render bailout; a
query change is not a dependency of the reset effect and leaves the current
page untouched. -/
def applyAction (s : ListingsPageState) : PageAction → ListingsPageState
  | .setActiveType t =>
    if t = s.activeType then s
    else { s with activeType := t, currentPage := 1 }
  | .setFilters f => { s with filters := f, currentPage := 1 }
  | .setCarFilters f => { s with carFilters := f, currentPage := 1 }
  | .setQuery q => { s with query := q }
  | .pageChange p => { s with currentPage := p }

/-! ## Specification-side definitions

These restate spec sentences in their own words, for comparison with the
definitions embedded from the source. -/

/-- Spec reading of one search field test: the query occurs as a
case-insensitive substring of the field. -/
def ciSubstring (field query : String) : Bool :=
  jsIncludes (jsToLower field) (jsToLower query)

/-- Spec reading of the property-kind match: the query occurs
case-insensitively in title, price, location or sqft. -/
def propertyMatchSpec (query : String) (p : PropertyListing) : Bool :=
  ciSubstring p.title query || ciSubstring p.price query ||
    ciSubstring p.location query || ciSubstring p.sqft query

/-- Spec reading of the car-kind match: the query occurs case-insensitively
in title, price, details, year or mileage. -/
def carMatchSpec (query : String) (c : CarListing) : Bool :=
  ciSubstring c.title query || ciSubstring c.price query ||
    ciSubstring c.details query || ciSubstring c.year query ||
    ciSubstring c.mileage query

/-- Spec reading of the classifier signal: the record exposes a truthy make
field, a truthy body-type field, or a source marker equal to the known
vehicle-source identifier. -/
def vehicleSignal (item : ChatRecord) : Bool :=
  truthyStr item.make || truthyStr item.bodyType ||
    item.source == some "Cars.com"

/-! ## Concrete fixtures used by witnesses and counterexamples -/

/-- Five backend listing records, as in the mocked five-listing chat
response. -/
def sampleRecords : List ChatRecord :=
  [{ address := some "100 Main St" }, { address := some "200 Oak Ave" },
   { make := some "Toyota" }, { address := some "400 Elm St" },
   { address := some "500 Pine Rd" }]

/-- A chat state ready to send the quick prompt about luxury apartments. -/
def sendReadyState : ChatState :=
  { messages := initialChatState.messages
    input := "Find luxury apartments in downtown areas"
    isLoading := false }

/-- A small canonical property listing used to populate collections. -/
def samplePropertySmall : PropertyListing :=
  { id := "p", title := "Cozy Apartment", location := "Richardson, TX",
    price := "$1,000", bedrooms := .num 2, bathrooms := .num 1,
    sqft := "900 sq ft", image := "img", condition := 80 }

/-- A listings page showing page 3 of a 20-item property collection. -/
def stalePageState : ListingsPageState :=
  { propertyListings := List.replicate 20 samplePropertySmall
    currentPage := 3 }

/-! ## Helper lemmas -/

theorem dollar_string_ne_empty (n : Nat) : "$" ++ toLocaleString n ≠ "" := by
  intro h
  have hlen := congrArg String.length h
  simp [String.length_append] at hlen
  exact absurd hlen.1 (by decide)

theorem propertyMatch_eq_spec (q : String) (p : PropertyListing) :
    propertyMatch (jsToLower q) p = propertyMatchSpec q p := by
  unfold propertyMatch propertyMatchSpec ciSubstring
  cases jsIncludes (jsToLower p.title) (jsToLower q) <;>
    cases jsIncludes (jsToLower p.price) (jsToLower q) <;> simp

theorem carMatch_eq_spec (q : String) (c : CarListing) :
    carMatch (jsToLower q) c = carMatchSpec q c := by
  unfold carMatch carMatchSpec ciSubstring
  cases jsIncludes (jsToLower c.title) (jsToLower q) <;>
    cases jsIncludes (jsToLower c.price) (jsToLower q) <;> simp

theorem runEvents_postAwait_cancelled (city : String) (rndP rndC : Nat → Nat)
    (pr : FetchResult (List RawProperty))
    (cr : FetchResult (Option (List RawCar))) (s : ListingsPageState) :
    runEvents s (postAwaitEvents true true true city rndP rndC pr cr) = s := by
  cases pr <;> cases cr <;> simp [postAwaitEvents, runEvents, stepEv]

/-! ## Claim theorems -/

/-- Claim C5: the classifier marks a backend record as a vehicle exactly when
it exposes a truthy make field, a truthy body-type field, or a source marker
equal to the known vehicle-source identifier "Cars.com", and as a property
otherwise; in particular a make-only record is a vehicle, an address-only
record and the empty record are properties, and a record carrying both make
and address is a vehicle (check-ordering tie-break). -/
theorem isCar_classifies_on_vehicle_signals :
    (∀ item : ChatRecord, isCar item = vehicleSignal item) ∧
    isCar { make := some "Toyota" } = true ∧
    isCar { address := some "123 Main St" } = false ∧
    isCar ({} : ChatRecord) = false ∧
    isCar { make := some "Toyota", address := some "123 Main St" } = true :=
  ⟨fun _ => rfl, rfl, rfl, rfl, rfl⟩

/-- Claim C10: invoking the chat send handler while the input is empty or
whitespace-only, or while a previous send is still in flight, is a complete
no-op: the state (messages, input, loading flag) is returned unchanged and
no request is issued. -/
theorem handleSend_guard_noop (now : Nat) (resp : Except Unit ChatResponse)
    (s : ChatState) (h : (jsTrim s.input).isEmpty = true ∨ s.isLoading = true) :
    handleSend now resp s = (s, none) := by
  rcases h with h | h <;> simp [handleSend, h]

/-- Witness for C10: sending with a whitespace-only input leaves the state
untouched and issues no request. -/
theorem handleSend_guard_noop_witness :
    handleSend 0 (.ok {}) { messages := [], input := "   ", isLoading := false } =
      ({ messages := [], input := "   ", isLoading := false }, none) :=
  handleSend_guard_noop 0 (.ok {})
    { messages := [], input := "   ", isLoading := false } (Or.inl (by decide))

/-- Claim C6: when the backend response carries a non-empty listings array of
n records, exactly one assistant message is appended, carrying the first
min(n, 3) listings and empty text content, and the user message appended
before it carries the sent input unchanged; the input is cleared and the
loading flag ends false. -/
theorem handleSend_listings_top3 (now : Nat) (s : ChatState)
    (d : ChatResponse) (l : List ChatRecord)
    (hin : (jsTrim s.input).isEmpty = false) (hload : s.isLoading = false)
    (hl : d.listings = some l) (hne : l ≠ []) :
    (handleSend now (.ok d) s).1.messages =
      s.messages ++
        [{ id := toString now, role := .user, content := s.input },
         { id := toString (now + 1), role := .assistant, content := "",
           listings := some (l.take 3) }] ∧
    (l.take 3).length = min l.length 3 ∧
    (handleSend now (.ok d) s).1.input = "" ∧
    (handleSend now (.ok d) s).1.isLoading = false := by
  have hlen : 0 < l.length := List.length_pos.mpr hne
  refine ⟨?_, ?_, ?_, ?_⟩ <;>
    simp [handleSend, hin, hload, hl, hasListings, hlen, Nat.min_comm]

/-- Witness for C6: the five-record mocked response appends one assistant
message carrying exactly the first three records. -/
theorem handleSend_listings_top3_witness :
    (handleSend 7 (.ok { listings := some sampleRecords }) sendReadyState).1.messages =
      sendReadyState.messages ++
        [{ id := toString 7, role := .user, content := sendReadyState.input },
         { id := toString (7 + 1), role := .assistant, content := "",
           listings := some (sampleRecords.take 3) }] ∧
    (sampleRecords.take 3).length = min sampleRecords.length 3 ∧
    (handleSend 7 (.ok { listings := some sampleRecords }) sendReadyState).1.input = "" ∧
    (handleSend 7 (.ok { listings := some sampleRecords }) sendReadyState).1.isLoading = false :=
  handleSend_listings_top3 7 sendReadyState { listings := some sampleRecords }
    sampleRecords (by decide) rfl rfl (by decide)

/-- Claim C7 counterexample: on a response with no listings and no reply, the
appended assistant content is the source's mojibake-corrupted fallback
literal, which is not the string "I couldn't find any matching listings." -/
theorem fallback_content_mismatch :
    ((handleSend 0 (.ok {}) { messages := [], input := "hi", isLoading := false }).1.messages.map
        Message.content) = ["hi", noListingsFallback] ∧
    noListingsFallback ≠ "I couldn't find any matching listings." :=
  ⟨rfl, by decide⟩

/-- Claim C7 as amended: when the backend response contains no listings
(absent or empty) exactly one assistant message is appended whose content is
the backend reply when that is truthy and otherwise the fixed fallback
literal stored in the source (whose apostrophe is mojibake-corrupted). -/
theorem handleSend_fallback_message (now : Nat) (s : ChatState)
    (d : ChatResponse)
    (hin : (jsTrim s.input).isEmpty = false) (hload : s.isLoading = false)
    (hnl : hasListings d.listings = false) :
    (handleSend now (.ok d) s).1.messages =
      s.messages ++
        [{ id := toString now, role := .user, content := s.input },
         { id := toString (now + 1), role := .assistant,
           content := jsOrStr d.reply noListingsFallback }] ∧
    (d.reply = none → jsOrStr d.reply noListingsFallback = noListingsFallback) ∧
    (∀ r, d.reply = some r → r.isEmpty = false →
      jsOrStr d.reply noListingsFallback = r) := by
  refine ⟨?_, ?_, ?_⟩
  · simp [handleSend, hin, hload, hnl]
  · intro h
    simp [jsOrStr, h]
  · intro r h hr
    simp [jsOrStr, h, hr]

/-- Witness for the amended C7: a response with neither listings nor reply
appends one assistant message with the fixed fallback content. -/
theorem handleSend_fallback_message_witness :
    ((handleSend 3 (.ok {}) { messages := [], input := "hello", isLoading := false }).1.messages =
      [] ++
        [{ id := toString 3, role := .user, content := "hello" },
         { id := toString (3 + 1), role := .assistant,
           content := jsOrStr (ChatResponse.reply {}) noListingsFallback }] ∧
    (ChatResponse.reply ({} : ChatResponse) = none →
      jsOrStr (ChatResponse.reply {}) noListingsFallback = noListingsFallback) ∧
    (∀ r, ChatResponse.reply ({} : ChatResponse) = some r → r.isEmpty = false →
      jsOrStr (ChatResponse.reply {}) noListingsFallback = r)) :=
  handleSend_fallback_message 3 { messages := [], input := "hello", isLoading := false }
    {} (by decide) rfl rfl

theorem runEvents_append (s : ListingsPageState) (l1 l2 : List FetchEv) :
    runEvents s (l1 ++ l2) = runEvents (runEvents s l1) l2 := by
  simp [runEvents, List.foldl_append]

/-- Claim C1 counterexample: in a run where the property fetch throws a
network error, the vehicle listings state is not updated from the (successful)
vehicle response: the whole cycle jumps to catch, so the car collection keeps
its previous value instead of the normalized vehicle results. -/
theorem property_netError_blocks_vehicle_update :
    (runCycle false false false "Richardson" (fun _ => 0) (fun _ => 0)
        .netError (.ok (some [{}])) initialListingsState).carListings =
      initialListingsState.carListings ∧
    initialListingsState.carListings = [] ∧
    demoCar :: transformCars (fun _ => 0) [{}] ≠ [] := by
  refine ⟨rfl, rfl, by simp⟩

/-- Claim C1 as amended: a non-2xx HTTP status in either upstream request
degrades that source to an empty result set without affecting the other
source, and a thrown network error in the vehicle fetch still leaves the
already-applied property results in place; but a thrown network error in the
property fetch aborts the rest of the cycle, so neither collection is
updated (the vehicle results are lost). The loading flag is cleared in every
case. -/
theorem fetch_partial_failure_behavior (s : ListingsPageState) (city : String)
    (rndP rndC : Nat → Nat) (dP : List RawProperty)
    (dC : Option (List RawCar)) :
    ((runCycle false false false city rndP rndC .httpError (.ok dC) s).propertyListings = [] ∧
     (runCycle false false false city rndP rndC .httpError (.ok dC) s).carListings =
       demoCar :: transformCars rndC (carPayload (.ok dC))) ∧
    ((runCycle false false false city rndP rndC (.ok dP) .httpError s).propertyListings =
       transformProperties city rndP dP ∧
     (runCycle false false false city rndP rndC (.ok dP) .httpError s).carListings =
       [demoCar]) ∧
    ((runCycle false false false city rndP rndC (.ok dP) .netError s).propertyListings =
       transformProperties city rndP dP ∧
     (runCycle false false false city rndP rndC (.ok dP) .netError s).carListings =
       s.carListings) ∧
    ((runCycle false false false city rndP rndC .netError (.ok dC) s).propertyListings =
       s.propertyListings ∧
     (runCycle false false false city rndP rndC .netError (.ok dC) s).carListings =
       s.carListings) ∧
    (runCycle false false false city rndP rndC .netError (.ok dC) s).loading = false := by
  refine ⟨⟨?_, ?_⟩, ⟨?_, ?_⟩, ⟨?_, ?_⟩, ⟨?_, ?_⟩, ?_⟩ <;>
    simp [runCycle, cycleEvents, preAwaitEvents, postAwaitEvents, runEvents,
      stepEv, rentPayload, carPayload, transformProperties, transformCars]

/-- Claim C2: a stale fetch cycle never mutates shared state. Cycle A runs
its unguarded pre-await write, cycle B starts (its cleanup having set A's
cancel flag) and applies its results, then A resolves with its guarded
writes all seeing cancel = true: the final state equals the state after B
alone, the final collections are exactly B's normalized results, and the
loading flag is false. -/
theorem stale_cycle_never_writes (s : ListingsPageState)
    (cityA cityB : String) (rndPA rndCA rndPB rndCB : Nat → Nat)
    (prA : FetchResult (List RawProperty))
    (crA : FetchResult (Option (List RawCar)))
    (dPB : List RawProperty) (dCB : Option (List RawCar)) :
    runEvents s (preAwaitEvents ++
        cycleEvents false false false cityB rndPB rndCB (.ok dPB) (.ok dCB) ++
        postAwaitEvents true true true cityA rndPA rndCA prA crA) =
      runEvents s (preAwaitEvents ++
        cycleEvents false false false cityB rndPB rndCB (.ok dPB) (.ok dCB)) ∧
    (runEvents s (preAwaitEvents ++
        cycleEvents false false false cityB rndPB rndCB (.ok dPB) (.ok dCB) ++
        postAwaitEvents true true true cityA rndPA rndCA prA crA)).propertyListings =
      transformProperties cityB rndPB dPB ∧
    (runEvents s (preAwaitEvents ++
        cycleEvents false false false cityB rndPB rndCB (.ok dPB) (.ok dCB) ++
        postAwaitEvents true true true cityA rndPA rndCA prA crA)).carListings =
      demoCar :: transformCars rndCB (carPayload (.ok dCB)) ∧
    (runEvents s (preAwaitEvents ++
        cycleEvents false false false cityB rndPB rndCB (.ok dPB) (.ok dCB) ++
        postAwaitEvents true true true cityA rndPA rndCA prA crA)).loading = false := by
  have hnoop := runEvents_postAwait_cancelled cityA rndPA rndCA prA crA
  refine ⟨?_, ?_, ?_, ?_⟩ <;> rw [runEvents_append, hnoop] <;> rfl

/-- Claim C3 counterexample: the vehicle normalizer emits the empty string
as the price of a record with no upstream price, and the injected demo
vehicle record also carries an empty price. -/
theorem vehicle_price_can_be_empty :
    demoCar.price = "" ∧ (transformCar 0 0 ({} : RawCar)).price = "" :=
  ⟨rfl, rfl⟩

/-- Claim C3 as amended: the property normalizer always emits a non-empty
price (a dollar-formatted amount or the sentinel "N/A"); the vehicle
normalizer emits a dollar-formatted amount when the upstream price is
truthy, but the empty string otherwise; the demo vehicle record's price is
the empty string. -/
theorem normalizer_price_amended :
    (∀ (city : String) (rnd i : Nat) (p : RawProperty),
      (transformProperty city rnd i p).price ≠ "" ∧
      ((transformProperty city rnd i p).price = "N/A" ∨
       ∃ n, (transformProperty city rnd i p).price = "$" ++ toLocaleString n)) ∧
    (∀ (rnd i : Nat) (c : RawCar),
      ((transformCar rnd i c).price = "" ↔ truthyNat c.price = false) ∧
      ((transformCar rnd i c).price = "" ∨
       ∃ n, (transformCar rnd i c).price = "$" ++ toLocaleString n)) ∧
    demoCar.price = "" := by
  refine ⟨?_, ?_, rfl⟩
  · intro city rnd i p
    cases h : truthyNat p.price with
    | false =>
      refine ⟨?_, Or.inl ?_⟩ <;> simp [transformProperty, h]
    | true =>
      constructor
      · simp only [transformProperty, h, if_true]
        exact dollar_string_ne_empty _
      · right
        exact ⟨p.price.getD 0, by simp [transformProperty, h]⟩
  · intro rnd i c
    cases h : truthyNat c.price with
    | false =>
      refine ⟨?_, Or.inl ?_⟩ <;> simp [transformCar, h]
    | true =>
      constructor
      · simp only [transformCar, h, if_true]
        simpa using (dollar_string_ne_empty (c.price.getD 0))
      · right
        exact ⟨c.price.getD 0, by simp [transformCar, h]⟩

/-- Claim C4 counterexample: changing the free-text query does not reset the
current page: on a page state showing page 3 of 20 properties, setting a
query that matches nothing leaves the current page at 3 while the new total
page count is 1, so a stale page index beyond totalPages is shown. -/
theorem query_change_keeps_stale_page :
    (applyAction stalePageState (.setQuery "zzz")).currentPage = 3 ∧
    totalPages (filteredListingsCount (applyAction stalePageState (.setQuery "zzz"))) = 1 ∧
    (3 : Nat) ≠ 1 := by
  refine ⟨rfl, by decide, by decide⟩

/-- Claim C4 as amended: a change to the active listing kind or to either
filter-state object resets the current page to 1, but a query change leaves
the current page untouched (the page-reset effect does not depend on the
query), so a stale page index beyond the new totalPages can be shown after
a query change. -/
theorem page_reset_on_kind_and_filters (s : ListingsPageState)
    (t : ListingType) (f : Filters) (cf : CarFilters) (q : String)
    (ht : t ≠ s.activeType) :
    (applyAction s (.setActiveType t)).currentPage = 1 ∧
    (applyAction s (.setFilters f)).currentPage = 1 ∧
    (applyAction s (.setCarFilters cf)).currentPage = 1 ∧
    (applyAction s (.setQuery q)).currentPage = s.currentPage := by
  refine ⟨?_, rfl, rfl, rfl⟩
  simp [applyAction, ht]

/-- Witness for the amended C4: on the initial page state, switching the
kind to cars or replacing a filter object resets the page to 1, while a
query change keeps the page. -/
theorem page_reset_on_kind_and_filters_witness :
    (applyAction initialListingsState (.setActiveType .car)).currentPage = 1 ∧
    (applyAction initialListingsState (.setFilters {})).currentPage = 1 ∧
    (applyAction initialListingsState (.setCarFilters {})).currentPage = 1 ∧
    (applyAction initialListingsState (.setQuery "tesla")).currentPage =
      initialListingsState.currentPage :=
  page_reset_on_kind_and_filters initialListingsState .car {} {} "tesla"
    (by decide)

/-- Claim C8: for both listing kinds, a blank (empty or whitespace-only)
query returns the collection unchanged in order, and otherwise the filter
engine returns exactly the listings whose kind-appropriate fields contain
the query as a case-insensitive substring; the result is always an ordered
subsequence of the collection. -/
theorem filter_engine_spec (q : String) (pl : List PropertyListing)
    (cl : List CarListing) :
    filteredProperties q pl =
      (if (jsTrim q).isEmpty then pl else pl.filter (propertyMatchSpec q)) ∧
    filteredCars q cl =
      (if (jsTrim q).isEmpty then cl else cl.filter (carMatchSpec q)) ∧
    (filteredProperties q pl).Sublist pl ∧
    (filteredCars q cl).Sublist cl := by
  have hp : propertyMatch (jsToLower q) = propertyMatchSpec q :=
    funext (propertyMatch_eq_spec q)
  have hc : carMatch (jsToLower q) = carMatchSpec q :=
    funext (carMatch_eq_spec q)
  refine ⟨by rw [filteredProperties, hp], by rw [filteredCars, hc], ?_, ?_⟩
  · rw [filteredProperties]
    split
    · exact List.Sublist.refl _
    · exact List.filter_sublist _
  · rw [filteredCars]
    split
    · exact List.Sublist.refl _
    · exact List.filter_sublist _

/-- Claim C9: filtering is idempotent for both listing kinds: applying the
filter engine to its own output with the same query yields the same
sequence. -/
theorem filter_idempotent (q : String) (pl : List PropertyListing)
    (cl : List CarListing) :
    filteredProperties q (filteredProperties q pl) = filteredProperties q pl ∧
    filteredCars q (filteredCars q cl) = filteredCars q cl := by
  constructor
  · unfold filteredProperties
    cases h : (jsTrim q).isEmpty <;> simp [h]
  · unfold filteredCars
    cases h : (jsTrim q).isEmpty <;> simp [h]
